import Mathlib

/-!
Shallow embedding of the request-capture serverless handlers
(`src/api/test-capture.ts`, `src/unnamed/part_000` … `part_002`) and proofs
about their body-format classification, XML metadata extraction, and
response-envelope behaviour.

JavaScript string primitives (`includes`, `indexOf`, `substring`, `trim`,
`startsWith`, the regex `/<([a-zA-Z][a-zA-Z0-9]*)/`) are modelled over
`List Char`; `String.prototype.includes pat` is `indexOf pat !== -1`, which is
how it is embedded here.
-/

namespace Capture

/-- ECMAScript whitespace as relevant here (the handlers only ever trim
ASCII payloads; the additional Unicode space characters of the full
`trim` production never interact with the `<?xml` sniffing). -/
def jsIsWhitespace (c : Char) : Bool :=
  c = ' ' || c = '\t' || c = '\n' || c = '\r' || c = '\x0b' || c = '\x0c' || c = ' '

def isAsciiLetter (c : Char) : Bool :=
  ('a' ≤ c && c ≤ 'z') || ('A' ≤ c && c ≤ 'Z')

def isAsciiAlnum (c : Char) : Bool :=
  isAsciiLetter c || ('0' ≤ c && c ≤ '9')

/-- `pat` is a prefix of `s` (char-list level). -/
def isPrefixCL : List Char → List Char → Bool
  | [], _ => true
  | _ :: _, [] => false
  | p :: ps, c :: cs => p = c && isPrefixCL ps cs

/-- Index of the first occurrence of `pat` in `s`, scanning left to right
(the core of JS `indexOf`). -/
def firstOcc (pat : List Char) : List Char → Option Nat
  | [] => if isPrefixCL pat [] then some 0 else none
  | c :: t => if isPrefixCL pat (c :: t) then some 0 else (firstOcc pat t).map (· + 1)

/-- JS `s.indexOf(pat)`: first index, or `-1` when absent. -/
def jsIndexOf (s pat : String) : Int :=
  match firstOcc pat.data s.data with
  | some k => (k : Int)
  | none => -1

/-- JS `s.includes(pat)` (equivalent to `indexOf(pat) !== -1`). -/
def includesStr (s pat : String) : Bool :=
  jsIndexOf s pat != -1

/-- JS `s.startsWith(pat)`. -/
def startsWithStr (s pat : String) : Bool :=
  isPrefixCL pat.data s.data

/-- JS `s.trim()`. -/
def trimStr (s : String) : String :=
  ⟨((s.data.dropWhile jsIsWhitespace).reverse.dropWhile jsIsWhitespace).reverse⟩

/-- JS `s.substring(a, b)`: clamp both arguments to `[0, length]`, swap them
if out of order, and return the characters in between. -/
def jsSubstring (s : String) (a b : Nat) : String :=
  let n := s.data.length
  let lo := min (min a n) (min b n)
  let hi := max (min a n) (min b n)
  ⟨(s.data.drop lo).take (hi - lo)⟩

/-- A match of the regex `/<([a-zA-Z][a-zA-Z0-9]*)/` anchored at the head of
the list: `<` followed by a letter, the capture group extending greedily over
letters and digits. -/
def tagNameAt : List Char → Option (List Char)
  | '<' :: c :: t => if isAsciiLetter c then some (c :: t.takeWhile isAsciiAlnum) else none
  | _ => none

/-- First (leftmost) match of `/<([a-zA-Z][a-zA-Z0-9]*)/`, returning the
capture group, as produced by `rawBody.match(...)` in `src/unnamed/part_002`. -/
def firstTagMatch : List Char → Option (List Char)
  | [] => none
  | c :: t =>
    match tagNameAt (c :: t) with
    | some nm => some nm
    | none => firstTagMatch t

/-- The JavaScript values a framework-parsed `req.body` can take: `undefined`
(no parse), `null`, booleans, numbers (the fractional part plays no role in
any handler path, so integers suffice), strings, and plain JSON-like objects.

`typeof` sorts these as: `obj` and `nullv` are `'object'`, `str` is
`'string'`, and the rest are neither. -/
inductive Js where
  | undef
  | nullv
  | bool (b : Bool)
  | num (n : Int)
  | str (s : String)
  | obj (fields : List (String × Js))
deriving Repr

/-- JS truthiness: `undefined`, `null`, `false`, `0` and `''` are falsy;
every object is truthy. -/
def Js.truthy : Js → Bool
  | .undef => false
  | .nullv => false
  | .bool b => b
  | .num n => n != 0
  | .str s => s != ""
  | .obj _ => true

def Js.isStringVal : Js → Bool
  | .str _ => true
  | _ => false

/-- `typeof v === 'object'` (true for `null` as well, a JS quirk). -/
def Js.isObjectTypeof : Js → Bool
  | .obj _ => true
  | .nullv => true
  | _ => false

mutual
/-- Models the platform builtin `JSON.stringify(v, null, 2)` as used to
re-serialize an already-parsed object body. Indentation and string escaping
are cosmetic for every property proved below (only determinism and the
leading `\x7b` of object output matter) and are omitted. -/
def stringifyChars : Js → List Char
  | .undef => []
  | .nullv => "null".data
  | .bool true => "true".data
  | .bool false => "false".data
  | .num n => (toString n).data
  | .str s => '"' :: s.data ++ ['"']
  | .obj fs => '\x7b' :: stringifyFields fs ++ ['\x7d']

def stringifyFields : List (String × Js) → List Char
  | [] => []
  | (k, v) :: rest =>
    ('"' :: k.data ++ ['"', ':'] ++ stringifyChars v) ++
      (match rest with
       | [] => []
       | _ => ',' :: stringifyFields rest)
end

def jsonStringify (v : Js) : String := ⟨stringifyChars v⟩

/-- `Object.prototype.toString` output for a plain object — every JS object
inherits a `toString`, so `src/unnamed/part_002`'s `req.body.toString('utf8')`
branch is the one taken for parsed-object bodies. -/
def objToString : String := "[object Object]"

/-- The slice of a Vercel request the handlers read. `contentType` models
`req.headers['content-type'] || ''` (an absent header and an empty one
collapse to `''` in the source, so a plain string loses nothing). `body` is
the framework-parsed `req.body`. `bodyBytes` is not visible to the handler
code at all: it records the transport-level payload of the original request
(`none` = the request carried no body bytes) and exists only so that claims
about "the original request" can be stated. -/
structure Request where
  method : String
  url : String
  contentType : String
  body : Js
  bodyBytes : Option String

/-- Minimal consistency between the framework's body parsing and the wire:
the framework leaves `req.body` undefined exactly when no body bytes
arrived, and otherwise produces some parsed value. (The parse itself —
bytes to `Js` — is the hosting runtime's, out of scope.) -/
def frameworkConsistent (r : Request) : Prop :=
  (r.body = Js.undef ↔ r.bodyBytes = none)

/- ### Body normalizer of `src/unnamed/part_001` (full capture handler, lines 104-251) -/

/-- `rawBody` computation (part_001 lines 117-126): a truthy string body is
kept as-is, a truthy `typeof 'object'` body is re-serialized with
`JSON.stringify(bodyData, null, 2)`, anything else leaves `rawBody = ''`.
(The stream-reading fallback of lines 129-142 only registers asynchronous
callbacks and has no synchronous effect before `rawBody` is used, so it
contributes nothing here.) -/
def rawBodyOf (bodyData : Js) : String :=
  if bodyData.truthy then
    match bodyData with
    | .str s => s
    | .obj fs => jsonStringify (.obj fs)
    | _ => ""
  else ""

/-- `const isJSON = contentType.includes('application/json')` -/
def isJSON (ct : String) : Bool := includesStr ct "application/json"

/-- `const isXML = contentType.includes('xml') || contentType.includes('text/plain') && rawBody.trim().startsWith('<?xml') || rawBody.trim().startsWith('<?xml')`
(JS `&&` binds tighter than `||`). -/
def isXML (ct rawBody : String) : Bool :=
  includesStr ct "xml" ||
    (includesStr ct "text/plain" && startsWithStr (trimStr rawBody) "<?xml") ||
    startsWithStr (trimStr rawBody) "<?xml"

/-- `const isFormData = contentType.includes('application/x-www-form-urlencoded') || contentType.includes('multipart/form-data')` -/
def isFormData (ct : String) : Bool :=
  includesStr ct "application/x-www-form-urlencoded" || includesStr ct "multipart/form-data"

/-- `const isTextPlain = contentType.includes('text/plain')` -/
def isTextPlain (ct : String) : Bool := includesStr ct "text/plain"

/-- `bodyType: isJSON ? 'json' : isXML ? 'xml' : isFormData ? 'form' : isTextPlain ? 'text' : 'unknown'` (part_001 line 183). -/
def bodyType (ct rawBody : String) : String :=
  if isJSON ct then "json"
  else if isXML ct rawBody then "xml"
  else if isFormData ct then "form"
  else if isTextPlain ct then "text"
  else "unknown"

/-- `bodyType: isJSON ? 'json' : isXML ? 'xml' : isFormData ? 'form' : 'unknown'`
— the capture handler embedded in `src/api/test-capture.ts` (line 136)
computes the same chain but with no `text` branch. -/
def bodyTypeTestCapture (ct rawBody : String) : String :=
  if isJSON ct then "json"
  else if isXML ct rawBody then "xml"
  else if isFormData ct then "form"
  else "unknown"

/-- `parsedBody` (part_001 lines 155-171): for a string body, an
`application/json` content type attempts `JSON.parse` and keeps the string
when it throws; a form content type attempts `URLSearchParams` decoding and
keeps the string when it throws; every other body passes through unchanged.
The two fallible platform parsers are parameters (`none` models a throw). -/
def parsedBodyOf (jsonParse formParse : String → Option Js) (ct : String) (bodyData : Js) : Js :=
  match bodyData with
  | .str s =>
    if isJSON ct then
      match jsonParse s with
      | some v => v
      | none => .str s
    else if isFormData ct then
      match formParse s with
      | some v => v
      | none => .str s
    else .str s
  | b => b

/-- The fields of part_001's `capturedData` object that the claims concern
(timestamp, headers, query, ip and user agent are opaque passthroughs and
carry no logic). `rawBody` holds `rawBody || null`. -/
structure Captured where
  method : String
  url : String
  body : Js
  rawBody : Js
  bodyType : String
  contentType : String
  isJSON : Bool
  isXML : Bool
  isFormData : Bool
  isTextPlain : Bool
deriving Repr

/-- `rawBody: rawBody || null` (part_001 line 182). -/
def rawBodyField (rawBody : String) : Js :=
  if rawBody != "" then .str rawBody else .nullv

def mkCaptured (jsonParse formParse : String → Option Js) (r : Request) : Captured :=
  let rawBody := rawBodyOf r.body
  let ct := r.contentType
  { method := r.method
    url := r.url
    body := parsedBodyOf jsonParse formParse ct r.body
    rawBody := rawBodyField rawBody
    bodyType := bodyType ct rawBody
    contentType := ct
    isJSON := isJSON ct
    isXML := isXML ct rawBody
    isFormData := isFormData ct
    isTextPlain := isTextPlain ct }

/-- The `FirestoreResult` interface of the handlers. -/
structure FirestoreResult where
  success : Bool
  documentId : Option String
  message : String
  error : Option String
deriving Repr, DecidableEq

/-- `db.collection('api_requests').add(...)` either resolves with a document
reference id or rejects with an error message; its build is the nested
try/catch of part_001 lines 212-233. -/
def firestoreResultOf (db : Except String String) : FirestoreResult :=
  match db with
  | .ok docId =>
    { success := true
      documentId := some docId
      message := "Data saved to Firestore successfully"
      error := none }
  | .error e =>
    { success := false
      documentId := none
      message := e
      error := some "Failed to save to Firestore" }

/-- The JSON bodies the capture handler can answer with. -/
inductive ResBody where
  | emptyBody
  | methodErr (error allowedMethod receivedMethod : String)
  | captureOk (success : Bool) (message : String) (data : Captured) (firestore : FirestoreResult)
deriving Repr

/-- What a handler invocation produced: the HTTP status, the response body,
whether the persistence write was invoked, and whether the CORS headers were
set on the response. -/
structure HandlerResult where
  status : Nat
  resBody : ResBody
  persisted : Bool
  corsSet : Bool
deriving Repr

/-- The full capture handler of `src/unnamed/part_001` (lines 104-251; the
handler of `src/api/test-capture.ts` lines 93-197 and of part_001 lines
11-94 share the identical method gate, CORS block, dead OPTIONS branch and
firestore/response logic). `db` is the outcome the firestore `add` call
would produce if invoked. Top to bottom as in the source: the `!== 'POST'`
gate answers 405 before CORS headers or any persistence logic; after it the
`req.method === 'OPTIONS'` preflight branch is kept exactly where the source
has it (lines 207-209), although nothing can reach it. -/
def captureHandler (jsonParse formParse : String → Option Js) (r : Request)
    (db : Except String String) : HandlerResult :=
  if r.method != "POST" then
    { status := 405
      resBody := .methodErr "Method not allowed. Only POST requests are accepted." "POST" r.method
      persisted := false
      corsSet := false }
  else
    let captured := mkCaptured jsonParse formParse r
    if r.method == "OPTIONS" then
      { status := 200, resBody := .emptyBody, persisted := false, corsSet := true }
    else
      { status := 200
        resBody := .captureOk true "Request data captured successfully" captured (firestoreResultOf db)
        persisted := true
        corsSet := true }

/- ### XML capture handler of `src/unnamed/part_002` -/

/-- `rawBody` computation of part_002 (lines 31-46): truthy string bodies
pass through; for a truthy `typeof 'object'` body the source first checks
`req.body.toString` — which every JS object inherits — so that branch always
wins and a parsed plain object serializes to `"[object Object]"`; the
`JSON.stringify` else-branch is unreachable for plain objects. -/
def xmlRawBodyOf (bodyData : Js) : String :=
  if bodyData.truthy then
    match bodyData with
    | .str s => s
    | .obj _ => objToString
    | _ => ""
  else ""

/-- The `XMLMetadata` interface of part_002. -/
structure XMLMetadata where
  declaration : String
  rootElement : String
  length : Nat
  hasDoctype : Bool
  encoding : String
deriving Repr, DecidableEq

/-- The metadata extraction of part_002 lines 55-79: only when the body was
classified XML and `rawBody` is truthy, take `xmlStart = rawBody.indexOf('<?xml')`
and `xmlEnd = rawBody.indexOf('?>')` (both searched from position 0); when
neither is `-1`, the declaration is `rawBody.substring(xmlStart, xmlEnd + 2)`,
the root element the first `/<([a-zA-Z][a-zA-Z0-9]*)/` match (or `'unknown'`),
plus length, doctype and encoding probes. -/
def xmlMetadataOf (ct rawBody : String) : Option XMLMetadata :=
  if isXML ct rawBody && rawBody != "" then
    let xmlStart := jsIndexOf rawBody "<?xml"
    let xmlEnd := jsIndexOf rawBody "?>"
    if xmlStart != -1 && xmlEnd != -1 then
      let xmlDeclaration := jsSubstring rawBody xmlStart.toNat (xmlEnd + 2).toNat
      let rootElement :=
        match firstTagMatch rawBody.data with
        | some nm => String.mk nm
        | none => "unknown"
      some
        { declaration := xmlDeclaration
          rootElement := rootElement
          length := rawBody.data.length
          hasDoctype := includesStr rawBody "<!DOCTYPE"
          encoding := if includesStr xmlDeclaration "encoding=\"UTF-8\"" then "UTF-8" else "unknown" }
    else none
  else none

/-- The fields of part_002's `capturedData` the claims concern. -/
structure XmlCaptured where
  method : String
  url : String
  body : Js
  rawBody : Js
  contentType : String
  isXML : Bool
  xmlMetadata : Option XMLMetadata
deriving Repr

/-- part_002's `capturedData` assembly (lines 82-106), reached only on the
POST path. -/
def mkXmlCaptured (r : Request) : XmlCaptured :=
  let rawBody := xmlRawBodyOf r.body
  let ct := r.contentType
  { method := r.method
    url := r.url
    body := r.body
    rawBody := rawBodyField rawBody
    contentType := ct
    isXML := isXML ct rawBody
    xmlMetadata := xmlMetadataOf ct rawBody }

/- ### Response-body projections -/

def ResBody.outerSuccess : ResBody → Option Bool
  | .captureOk s _ _ _ => some s
  | _ => none

def ResBody.dataOf : ResBody → Option Captured
  | .captureOk _ _ d _ => some d
  | _ => none

def ResBody.firestoreOf : ResBody → Option FirestoreResult
  | .captureOk _ _ _ f => some f
  | _ => none

/- ### Claim-side definitions (stated from the specification's words, to be
compared with the definitions embedded from the source) -/

/-- Claim-side (C10): the two-clause XML detection predicate — content type
contains `xml`, or the trimmed raw body starts with `<?xml`. -/
def isXMLTwoClause (ct rawBody : String) : Bool :=
  includesStr ct "xml" || startsWithStr (trimStr rawBody) "<?xml"

/-- Claim-side (C3): the five-way priority classification exactly as the
claim words it. -/
def bodyTypeClaimed (ct raw : String) : String :=
  if includesStr ct "application/json" then "json"
  else if includesStr ct "xml" ||
      (includesStr ct "text/plain" && startsWithStr (trimStr raw) "<?xml") ||
      startsWithStr (trimStr raw) "<?xml" then "xml"
  else if includesStr ct "application/x-www-form-urlencoded" ||
      includesStr ct "multipart/form-data" then "form"
  else if includesStr ct "text/plain" then "text"
  else "unknown"

/-- Claim-side (C3, amended part): the same priority chain with the `text`
clause removed, which is what the `test-capture.ts` capture variant computes. -/
def bodyTypeClaimedDropText (ct raw : String) : String :=
  if includesStr ct "application/json" then "json"
  else if includesStr ct "xml" ||
      (includesStr ct "text/plain" && startsWithStr (trimStr raw) "<?xml") ||
      startsWithStr (trimStr raw) "<?xml" then "xml"
  else if includesStr ct "application/x-www-form-urlencoded" ||
      includesStr ct "multipart/form-data" then "form"
  else "unknown"

/-- Claim-side (C7): the substring of `raw` spanning from the first
occurrence of `<?xml` to the first `?>` occurring at or after it, inclusive
of both delimiters (`none` when either delimiter is missing). An occurrence
of `?>` at offset `d` inside `raw.data.drop i` sits at index `i + d` of
`raw`, so the span is `[i, i + d + 2)`. -/
def claimedDeclaration (raw : String) : Option String :=
  match firstOcc "<?xml".data raw.data with
  | none => none
  | some i =>
    match firstOcc "?>".data (raw.data.drop i) with
    | none => none
    | some d => some (jsSubstring raw i (i + d + 2))

/-- A match of `/<([a-zA-Z][a-zA-Z0-9]*)/` begins at index `k` of `s`. -/
def tagStartAt (s : List Char) (k : Nat) : Bool :=
  (tagNameAt (s.drop k)).isSome

/-- Claim-side (C8): no match of the tag pattern begins before index `i` —
together with a match at `i`, this says the match at `i` is the first one. -/
abbrev NoTagBefore (s : List Char) (i : Nat) : Prop :=
  ∀ k, k < i → tagStartAt s k = false

/- ### Concrete inputs for witnesses and counterexamples -/

/-- A parser that always throws (models `JSON.parse` / `URLSearchParams`
rejecting the input). -/
def noParse : String → Option Js := fun _ => none

/-- A preflight OPTIONS request to a capture endpoint. -/
def reqOptions : Request :=
  { method := "OPTIONS", url := "/api/capture", contentType := "", body := .undef,
    bodyBytes := none }

/-- A POST whose JSON body bytes `"0"` were parsed by the framework into the
number `0` — body bytes present, parsed body falsy. -/
def reqJsonZero : Request :=
  { method := "POST", url := "/api/capture", contentType := "application/json",
    body := .num 0, bodyBytes := some "0" }

/-- A POST with `Content-Type: application/json` whose body is an XML
document rather than JSON. -/
def reqJsonXmlBody : Request :=
  { method := "POST", url := "/api/capture", contentType := "application/json",
    body := .str "<?xml version=\"1.0\"?><a/>",
    bodyBytes := some "<?xml version=\"1.0\"?><a/>" }

/-- A POST carrying an XML document with no content type set. -/
def reqBareXml : Request :=
  { method := "POST", url := "/api/capture", contentType := "",
    body := .str "<?xml version=\"1.0\"?><a/>",
    bodyBytes := some "<?xml version=\"1.0\"?><a/>" }

/-- A POST declaring JSON whose body does not decode as JSON. -/
def reqBadJson : Request :=
  { method := "POST", url := "/api/capture", contentType := "application/json",
    body := .str "not json at all", bodyBytes := some "not json at all" }

/-- A POST carrying a well-formed XML document with declaration, encoding
and a root tag. -/
def reqFullXml : Request :=
  { method := "POST", url := "/api/xml-capture", contentType := "application/xml",
    body := .str "<?xml version=\"1.0\" encoding=\"UTF-8\"?><root><a/></root>",
    bodyBytes := some "<?xml version=\"1.0\" encoding=\"UTF-8\"?><root><a/></root>" }

/-- An XML-typed body in which a stray `?>` precedes the `<?xml`
declaration. -/
def strayRaw : String := "?> <?xml version=\"1.0\"?>"

/- ### Helper lemmas -/

/-- Shifting `firstOcc`: the first occurrence of `pat`, when it lies at or
beyond index `i`, is also found by searching the suffix `s.drop i`. -/
theorem firstOcc_drop (pat s : List Char) (i j : Nat)
    (h : firstOcc pat s = some j) (hij : i ≤ j) :
    firstOcc pat (s.drop i) = some (j - i) := by
  induction i generalizing s j with
  | zero => simpa using h
  | succ i ih =>
    cases s with
    | nil =>
      unfold firstOcc at h
      split at h
      · exact absurd (Option.some.inj h) (by omega)
      · exact absurd h (by simp)
    | cons c t =>
      unfold firstOcc at h
      split at h
      · exact absurd (Option.some.inj h) (by omega)
      · match ht : firstOcc pat t with
        | none => rw [ht] at h; exact absurd h (by simp)
        | some j' =>
          rw [ht] at h
          simp only [Option.map_some', Option.some.injEq] at h
          have hj : j = j' + 1 := by omega
          rw [List.drop_succ_cons]
          rw [ih t j' ht (by omega)]
          congr 1
          omega

/-- The left-to-right regex scan returns the match at the least matching
index. -/
theorem firstTagMatch_eq_of_first (s : List Char) (i : Nat) (nm : List Char)
    (hno : NoTagBefore s i) (hi : tagNameAt (s.drop i) = some nm) :
    firstTagMatch s = some nm := by
  induction s generalizing i with
  | nil => simp [tagNameAt] at hi
  | cons c t ih =>
    cases i with
    | zero =>
      rw [List.drop_zero] at hi
      unfold firstTagMatch
      rw [hi]
    | succ i' =>
      have h0 : tagStartAt (c :: t) 0 = false := hno 0 (Nat.succ_pos _)
      have hnone : tagNameAt (c :: t) = none := by
        unfold tagStartAt at h0
        rw [List.drop_zero] at h0
        exact Option.not_isSome_iff_eq_none.mp (by simp [h0])
      unfold firstTagMatch
      rw [hnone]
      refine ih i' (fun k hk => ?_) ?_
      · have := hno (k + 1) (by omega)
        unfold tagStartAt at this ⊢
        rwa [List.drop_succ_cons] at this
      · rwa [List.drop_succ_cons] at hi

/-- `JSON.stringify` of an object is never the empty string (it opens with a
brace). -/
theorem jsonStringify_obj_ne_empty (fs : List (String × Js)) :
    jsonStringify (Js.obj fs) ≠ "" := by
  intro h
  have : stringifyChars (Js.obj fs) = [] := congrArg String.data h
  rw [stringifyChars] at this
  exact absurd this (by simp)

/-- `rawBody || null` is `null` exactly for the empty string. -/
theorem rawBodyField_eq_nullv_iff (s : String) :
    rawBodyField s = Js.nullv ↔ s = "" := by
  unfold rawBodyField
  by_cases h : s = ""
  · simp [h]
  · simp [h, bne_iff_ne]

/-- Characterization of the XML metadata extraction on the populated
branch. -/
theorem xmlMetadataOf_eq_some (ct raw : String) (i j : Nat)
    (hx : (isXML ct raw && (raw != "")) = true)
    (hi : firstOcc "<?xml".data raw.data = some i)
    (hj : firstOcc "?>".data raw.data = some j) :
    xmlMetadataOf ct raw = some
      { declaration := jsSubstring raw i (j + 2)
        rootElement :=
          match firstTagMatch raw.data with
          | some nm => String.mk nm
          | none => "unknown"
        length := raw.data.length
        hasDoctype := includesStr raw "<!DOCTYPE"
        encoding :=
          if includesStr (jsSubstring raw i (j + 2)) "encoding=\"UTF-8\"" then "UTF-8"
          else "unknown" } := by
  unfold xmlMetadataOf
  rw [if_pos hx]
  have h1 : jsIndexOf raw "<?xml" = (i : Int) := by simp [jsIndexOf, hi]
  have h2 : jsIndexOf raw "?>" = (j : Int) := by simp [jsIndexOf, hj]
  simp only [h1, h2]
  have h3 : (((i : Int) != -1) && ((j : Int) != -1)) = true := by
    simp only [Bool.and_eq_true, bne_iff_ne]
    constructor <;> omega
  rw [if_pos h3]
  have h4 : ((i : Int)).toNat = i := by omega
  have h5 : ((j : Int) + 2).toNat = j + 2 := by omega
  rw [h4, h5]

/- ### Claim theorems -/

/-- C1: the claim says an OPTIONS request to a capture endpoint gets
permissive CORS headers and an empty-body 200 without persistence being
invoked. The code's POST-only gate runs first and rejects OPTIONS with a
405 JSON error body, no CORS headers, and — the one part that does hold —
no persistence; the `req.method === 'OPTIONS'` branch later in the handler
is unreachable. This theorem evaluates the handler at an OPTIONS request
and records the actual outcome. -/
theorem options_request_gets_405_not_200 :
    captureHandler noParse noParse reqOptions (Except.ok "doc") =
      { status := 405
        resBody := .methodErr "Method not allowed. Only POST requests are accepted." "POST" "OPTIONS"
        persisted := false
        corsSet := false } := rfl

/-- C10: the three-clause XML detection predicate of the source equals the
two-clause predicate (content type contains `xml`, or the trimmed raw body
starts with `<?xml`); the `text/plain` clause is redundant. -/
theorem isXML_eq_two_clause (ct raw : String) :
    isXML ct raw = isXMLTwoClause ct raw := by
  unfold isXML isXMLTwoClause
  cases startsWithStr (trimStr raw) "<?xml" <;>
    cases includesStr ct "xml" <;>
      cases includesStr ct "text/plain" <;> rfl

/-- C3 counterexample: the claim's priority order ends in `text` for a
`text/plain` content type, but the capture handler embedded in
`src/api/test-capture.ts` has no `text` branch and classifies such a
request as `unknown`. -/
theorem bodyType_testCapture_text_plain_not_text :
    bodyTypeTestCapture "text/plain" "hello" = "unknown" ∧
      bodyTypeClaimed "text/plain" "hello" = "text" ∧
      bodyTypeTestCapture "text/plain" "hello" ≠ bodyTypeClaimed "text/plain" "hello" := by
  decide

/-- C3 (amended): the `part_001` capture handler computes `bodyType` by
exactly the claimed five-way priority order; the `test-capture.ts` capture
variant follows the same order with the `text` clause removed, so its
`text/plain`-only requests fall through to `unknown`. -/
theorem bodyType_follows_priority_order (ct raw : String) :
    bodyType ct raw = bodyTypeClaimed ct raw ∧
      bodyTypeTestCapture ct raw = bodyTypeClaimedDropText ct raw :=
  ⟨rfl, rfl⟩

/-- C4 counterexample: a raw body starting with `<?xml` does not make
`bodyType = "xml"` when the content type contains `application/json` — the
JSON branch has priority and yields `"json"`. -/
theorem xml_body_with_json_content_type_is_json :
    startsWithStr (trimStr (rawBodyOf reqJsonXmlBody.body)) "<?xml" = true ∧
      (mkCaptured noParse noParse reqJsonXmlBody).bodyType = "json" ∧
      (mkCaptured noParse noParse reqJsonXmlBody).bodyType ≠ "xml" := by
  decide

/-- C4 (amended): whenever the trimmed raw body starts with `<?xml` and the
content type does not contain `application/json`, the capture record's
`bodyType` is `"xml"`, whatever else the content type says. -/
theorem xml_sniff_sets_bodyType_xml
    (jp fp : String → Option Js) (r : Request)
    (hx : startsWithStr (trimStr (rawBodyOf r.body)) "<?xml" = true)
    (hj : isJSON r.contentType = false) :
    (mkCaptured jp fp r).bodyType = "xml" := by
  simp [mkCaptured, bodyType, hj, isXML, hx]

/-- C4 witness: an XML body with no content type set classifies as XML. -/
theorem xml_sniff_sets_bodyType_xml_witness :
    (mkCaptured noParse noParse reqBareXml).bodyType = "xml" :=
  xml_sniff_sets_bodyType_xml noParse noParse reqBareXml (by decide) (by decide)

/-- C2: when the persistence write throws, a POST to the capture endpoint
still answers HTTP 200 with an outer envelope whose `success` is `true`,
while the nested storage outcome carries `success:false`, the error string
`'Failed to save to Firestore'`, and the thrown error's message. -/
theorem persistence_failure_still_succeeds
    (jp fp : String → Option Js) (r : Request) (e : String)
    (hm : r.method = "POST") :
    (captureHandler jp fp r (Except.error e)).status = 200 ∧
      ((captureHandler jp fp r (Except.error e)).resBody).outerSuccess = some true ∧
      ((captureHandler jp fp r (Except.error e)).resBody).firestoreOf =
        some { success := false, documentId := none, message := e,
               error := some "Failed to save to Firestore" } := by
  simp [captureHandler, hm, firestoreResultOf, ResBody.outerSuccess, ResBody.firestoreOf]

/-- C2 witness: a concrete POST whose firestore write rejects. -/
theorem persistence_failure_witness :
    (captureHandler noParse noParse reqBadJson (Except.error "quota exceeded")).status = 200 ∧
      ((captureHandler noParse noParse reqBadJson (Except.error "quota exceeded")).resBody).outerSuccess =
        some true ∧
      ((captureHandler noParse noParse reqBadJson (Except.error "quota exceeded")).resBody).firestoreOf =
        some { success := false, documentId := none, message := "quota exceeded",
               error := some "Failed to save to Firestore" } :=
  persistence_failure_still_succeeds noParse noParse reqBadJson "quota exceeded" rfl

/-- C5: a string body under an `application/json` content type whose JSON
decode throws is kept verbatim as the capture record's `body`, and the
request still answers 200 with outer `success:true`. -/
theorem bad_json_body_kept_verbatim
    (jp fp : String → Option Js) (r : Request) (s : String) (db : Except String String)
    (hm : r.method = "POST") (hb : r.body = Js.str s)
    (hct : includesStr r.contentType "application/json" = true)
    (hp : jp s = none) :
    (captureHandler jp fp r db).status = 200 ∧
      ((captureHandler jp fp r db).resBody).outerSuccess = some true ∧
      ((captureHandler jp fp r db).resBody).dataOf.map Captured.body = some (Js.str s) := by
  have hj : isJSON r.contentType = true := hct
  simp [captureHandler, hm, mkCaptured, parsedBodyOf, hb, hj, hp,
    ResBody.outerSuccess, ResBody.dataOf]

/-- C5 witness: the undecodable JSON body `'not json at all'` survives
unchanged. -/
theorem bad_json_body_kept_verbatim_witness :
    (captureHandler noParse noParse reqBadJson (Except.ok "doc")).status = 200 ∧
      ((captureHandler noParse noParse reqBadJson (Except.ok "doc")).resBody).outerSuccess =
        some true ∧
      ((captureHandler noParse noParse reqBadJson (Except.ok "doc")).resBody).dataOf.map
        Captured.body = some (Js.str "not json at all") :=
  bad_json_body_kept_verbatim noParse noParse reqBadJson "not json at all" (Except.ok "doc")
    rfl rfl (by decide) rfl

/-- C9 counterexample: a request whose JSON body bytes `"0"` parse to the
number `0` carries body bytes, satisfies the framework-consistency link,
and still gets `rawBody = null` — the record's `rawBody` nullity does not
coincide with the absence of body bytes. -/
theorem rawBody_null_despite_body_bytes :
    frameworkConsistent reqJsonZero ∧ reqJsonZero.bodyBytes ≠ none ∧
      (mkCaptured noParse noParse reqJsonZero).rawBody = Js.nullv :=
  ⟨by simp [frameworkConsistent, reqJsonZero], by simp [reqJsonZero], rfl⟩

/-- C9 (amended): the capture record's `rawBody` is `null` exactly when the
framework-parsed body is falsy (absent, `null`, `false`, `0`, or `''`) or
is truthy but neither a string nor of `typeof 'object'` (a nonzero number
or `true`) — not when the original request carried no body bytes. -/
theorem rawBody_null_iff_body_not_stringifiable
    (jp fp : String → Option Js) (r : Request) :
    (mkCaptured jp fp r).rawBody = Js.nullv ↔
      (r.body.truthy = false ∨
        (r.body.isStringVal = false ∧ r.body.isObjectTypeof = false)) := by
  have hfield : (mkCaptured jp fp r).rawBody = rawBodyField (rawBodyOf r.body) := rfl
  rw [hfield, rawBodyField_eq_nullv_iff]
  cases hb : r.body with
  | undef => simp [rawBodyOf, Js.truthy, Js.isStringVal, Js.isObjectTypeof]
  | nullv => simp [rawBodyOf, Js.truthy, Js.isStringVal, Js.isObjectTypeof]
  | bool b => cases b <;> simp [rawBodyOf, Js.truthy, Js.isStringVal, Js.isObjectTypeof]
  | num n =>
    by_cases hn : n = 0 <;>
      simp [rawBodyOf, Js.truthy, Js.isStringVal, Js.isObjectTypeof, hn]
  | str s =>
    by_cases hs : s = "" <;>
      simp [rawBodyOf, Js.truthy, Js.isStringVal, Js.isObjectTypeof, hs]
  | obj fs =>
    simp [rawBodyOf, Js.truthy, Js.isStringVal, Js.isObjectTypeof,
      jsonStringify_obj_ne_empty fs]

/-- C6: the XML capture record's `xmlMetadata` is populated only when the
raw body contains both a `<?xml` occurrence and a `?>` occurrence; when the
pair is not found it is omitted (the contrapositive), even if the body was
classified XML. -/
theorem xmlMetadata_requires_declaration_pair
    (r : Request)
    (h : (mkXmlCaptured r).xmlMetadata.isSome = true) :
    ∃ raw, (mkXmlCaptured r).rawBody = Js.str raw ∧
      includesStr raw "<?xml" = true ∧ includesStr raw "?>" = true := by
  have h' : (xmlMetadataOf r.contentType (xmlRawBodyOf r.body)).isSome = true := h
  unfold xmlMetadataOf at h'
  by_cases h1 : (isXML r.contentType (xmlRawBodyOf r.body) && (xmlRawBodyOf r.body != "")) = true
  · rw [if_pos h1] at h'
    by_cases h2 : ((jsIndexOf (xmlRawBodyOf r.body) "<?xml" != -1) &&
        (jsIndexOf (xmlRawBodyOf r.body) "?>" != -1)) = true
    · refine ⟨xmlRawBodyOf r.body, ?_, ?_, ?_⟩
      · have hraw : (xmlRawBodyOf r.body != "") = true := ((Bool.and_eq_true _ _).mp h1).2
        show rawBodyField (xmlRawBodyOf r.body) = Js.str (xmlRawBodyOf r.body)
        unfold rawBodyField
        rw [if_pos hraw]
      · exact ((Bool.and_eq_true _ _).mp h2).1
      · exact ((Bool.and_eq_true _ _).mp h2).2
    · rw [if_neg h2] at h'
      simp at h'
  · rw [if_neg h1] at h'
    simp at h'

/-- C6 witness: a well-formed XML POST body yields a populated record. -/
theorem xmlMetadata_requires_declaration_pair_witness :
    ∃ raw, (mkXmlCaptured reqFullXml).rawBody = Js.str raw ∧
      includesStr raw "<?xml" = true ∧ includesStr raw "?>" = true :=
  xmlMetadata_requires_declaration_pair reqFullXml (by decide)

/-- C7 counterexample: in the body `'?> <?xml version="1.0"?>'` (classified
XML by its content type; the first `?>` at or after `<?xml` exists, at the
very end), the claim demands the declaration `'<?xml version="1.0"?>'`, but
the code searches `indexOf('?>')` from position 0, lands on the stray `?>`
before `<?xml`, and extracts `' '` via the argument-swapping semantics of
`substring`. -/
theorem declaration_uses_first_close_anywhere :
    (xmlMetadataOf "text/xml" strayRaw).map XMLMetadata.declaration = some " " ∧
      claimedDeclaration strayRaw = some "<?xml version=\"1.0\"?>" ∧
      (" " : String) ≠ "<?xml version=\"1.0\"?>" := by
  decide

/-- C7 (amended): when additionally no `?>` occurs strictly before the
first `<?xml` — i.e. the first `?>` of the whole body already lies at or
after it — the extracted declaration equals the substring spanning the
first `<?xml` to the first `?>` at or after it, inclusive of both
delimiters, exactly as the claim states. -/
theorem declaration_spans_first_pair
    (ct raw : String) (i j : Nat)
    (hi : firstOcc "<?xml".data raw.data = some i)
    (hj : firstOcc "?>".data raw.data = some j)
    (hij : i ≤ j)
    (hm : (xmlMetadataOf ct raw).isSome = true) :
    (xmlMetadataOf ct raw).map XMLMetadata.declaration = some (jsSubstring raw i (j + 2)) ∧
      claimedDeclaration raw = some (jsSubstring raw i (j + 2)) := by
  have hx : (isXML ct raw && (raw != "")) = true := by
    unfold xmlMetadataOf at hm
    by_cases h1 : (isXML ct raw && (raw != "")) = true
    · exact h1
    · rw [if_neg h1] at hm; simp at hm
  rw [xmlMetadataOf_eq_some ct raw i j hx hi hj]
  refine ⟨by simp, ?_⟩
  unfold claimedDeclaration
  rw [hi]
  dsimp only
  rw [firstOcc_drop _ _ i j hj hij]
  dsimp only
  have : i + (j - i) + 2 = j + 2 := by omega
  rw [this]

/-- C7 witness: a body that is exactly an XML declaration, whose `<?xml`
sits at index 0 and whose first `?>` is at index 19. -/
theorem declaration_spans_first_pair_witness :
    (xmlMetadataOf "text/xml" "<?xml version=\"1.0\"?>").map XMLMetadata.declaration =
        some (jsSubstring "<?xml version=\"1.0\"?>" 0 (19 + 2)) ∧
      claimedDeclaration "<?xml version=\"1.0\"?>" =
        some (jsSubstring "<?xml version=\"1.0\"?>" 0 (19 + 2)) :=
  declaration_spans_first_pair "text/xml" "<?xml version=\"1.0\"?>" 0 19
    (by decide) (by decide) (by decide) (by decide)

/-- C8: when the XML metadata is populated and the tag pattern
`/<([a-zA-Z][a-zA-Z0-9]*)/` has its first (leftmost) match at index `i` of
the raw body, the record's `rootElement` is exactly that first matched tag
name — a textual heuristic, not the structural root. -/
theorem rootElement_is_first_tag_name
    (r : Request) (i : Nat) (nm : List Char)
    (hm : (mkXmlCaptured r).xmlMetadata.isSome = true)
    (hno : NoTagBefore (xmlRawBodyOf r.body).data i)
    (hi : tagNameAt ((xmlRawBodyOf r.body).data.drop i) = some nm) :
    (mkXmlCaptured r).xmlMetadata.map XMLMetadata.rootElement = some (String.mk nm) := by
  have h' : (xmlMetadataOf r.contentType (xmlRawBodyOf r.body)).isSome = true := hm
  show (xmlMetadataOf r.contentType (xmlRawBodyOf r.body)).map XMLMetadata.rootElement =
    some (String.mk nm)
  unfold xmlMetadataOf at h' ⊢
  by_cases h1 : (isXML r.contentType (xmlRawBodyOf r.body) && (xmlRawBodyOf r.body != "")) = true
  · rw [if_pos h1] at h' ⊢
    by_cases h2 : ((jsIndexOf (xmlRawBodyOf r.body) "<?xml" != -1) &&
        (jsIndexOf (xmlRawBodyOf r.body) "?>" != -1)) = true
    · rw [if_pos h2]
      rw [firstTagMatch_eq_of_first (xmlRawBodyOf r.body).data i nm hno hi]
      simp
    · rw [if_neg h2] at h'
      simp at h'
  · rw [if_neg h1] at h'
    simp at h'

/-- C8 witness: in the full XML document the first tag match begins at
index 38 (just past the 38-character declaration) and names `root`. -/
theorem rootElement_is_first_tag_name_witness :
    (mkXmlCaptured reqFullXml).xmlMetadata.map XMLMetadata.rootElement =
      some (String.mk "root".data) :=
  rootElement_is_first_tag_name reqFullXml 38 "root".data
    (by decide) (by decide) (by decide)

end Capture
